import Mathlib

/-!
Shallow embedding of the On-chain Anomaly Tracker detection core.

Each definition translates one Python function of the repository
(`src/backend/*.py`, `src/frontend/backend/*.py`) into Lean:

* Python floats are idealized as exact rationals (`ℚ`); numpy/pandas float
  results of division by zero (inf, -inf, nan) are modelled by the `QF` type.
* Fallible code (Python code that can raise `KeyError`, `ValueError` or
  `ZeroDivisionError`) is modelled with `Option`, `none` standing for a
  propagated exception.
* Python dict/grouping order: `defaultdict` groups appear in first-insertion
  order (`uniqKeys`), pandas `groupby` sorts group keys; list/`sorted` sorts
  are stable (`stableInsSort`).
-/

namespace OnChain

/-! ## Generic helpers: strings, grouping, stable sorting -/

/-- Models Python `str.lower()` (character-wise lowering). -/
def lowerStr (s : String) : String := ⟨s.data.map Char.toLower⟩

/-- Character-list test that `pat` occurs as a prefix of `l`. -/
def startsWithChars : List Char → List Char → Bool
  | [], _ => true
  | _ :: _, [] => false
  | a :: as, b :: bs => a = b && startsWithChars as bs

/-- Character-list test that `pat` occurs somewhere inside `l`. -/
def hasSubChars (pat : List Char) : List Char → Bool
  | [] => startsWithChars pat []
  | l@(_ :: ls) => startsWithChars pat l || hasSubChars pat ls

/-- Models Python `pat in s` on strings. -/
def strHasSub (s pat : String) : Bool := hasSubChars pat.data s.data

/-- Lexicographic strict order on character lists (models Python `<` on str). -/
def ltChars : List Char → List Char → Bool
  | [], [] => false
  | [], _ :: _ => true
  | _ :: _, [] => false
  | a :: as, b :: bs => if a < b then true else if b < a then false else ltChars as bs

/-- Insert `a` into a sorted list, after all elements not strictly greater:
with a strict `lt` this is the stable insertion step. -/
def insertSorted (lt : α → α → Bool) (a : α) : List α → List α
  | [] => [a]
  | b :: bs => if lt a b then a :: b :: bs else b :: insertSorted lt a bs

/-- Stable sort by the strict comparison `lt` (equal elements keep their
original relative order, as Python's stable `sorted`/`list.sort`). -/
def stableInsSort (lt : α → α → Bool) (l : List α) : List α :=
  l.foldl (fun acc a => insertSorted lt a acc) []

/-- Keys of a list in first-appearance order with duplicates removed
(the iteration order of a Python `defaultdict`/`dict`). -/
def uniqKeysAux [DecidableEq κ] (seen : List κ) : List κ → List κ
  | [] => []
  | k :: ks => if k ∈ seen then uniqKeysAux seen ks else k :: uniqKeysAux (k :: seen) ks

def uniqKeys [DecidableEq κ] (l : List κ) : List κ := uniqKeysAux [] l

/-- Group a list by a key, keys in first-appearance order, each group in
original order (the semantics of grouping into a `defaultdict(list)`). -/
def groupPairsBy [DecidableEq κ] (key : α → κ) (l : List α) : List (κ × List α) :=
  (uniqKeys (l.map key)).map (fun k => (k, l.filter (fun a => key a = k)))

/-! ## `QF`: numpy-float results (finite, ±inf, nan) -/

/-- A numpy float64 value as produced by the pandas pipelines: an exact
rational, one of the two infinities, or nan. -/
inductive QF where
  | nan : QF
  | inf : QF
  | ninf : QF
  | q : ℚ → QF
deriving DecidableEq

/-- numpy division of two finite floats: division by zero yields ±inf or nan
(with a warning) instead of raising. -/
def fdiv (a b : ℚ) : QF :=
  if b = 0 then (if a = 0 then .nan else if 0 < a then .inf else .ninf) else .q (a / b)

/-- `x <= c` for a numpy float against a finite threshold (false for nan). -/
def QF.leQ : QF → ℚ → Bool
  | .nan, _ => false
  | .inf, _ => false
  | .ninf, _ => true
  | .q x, c => x ≤ c

/-- `x > c` for a numpy float against a finite threshold (false for nan). -/
def QF.gtQ : QF → ℚ → Bool
  | .nan, _ => false
  | .inf, _ => true
  | .ninf, _ => false
  | .q x, c => c < x

/-- `x >= c` for a numpy float against a finite threshold (false for nan). -/
def QF.geQ : QF → ℚ → Bool
  | .nan, _ => false
  | .inf, _ => true
  | .ninf, _ => false
  | .q x, c => c ≤ x

/-- Strict `<` between two numpy floats (false whenever nan is involved). -/
def QF.ltQF : QF → QF → Bool
  | .nan, _ => false
  | _, .nan => false
  | .inf, _ => false
  | .ninf, .ninf => false
  | .ninf, _ => true
  | .q _, .inf => true
  | .q _, .ninf => false
  | .q x, .q y => x < y

/-- Absolute value of a numpy float. -/
def QF.abs : QF → QF
  | .nan => .nan
  | .inf => .inf
  | .ninf => .inf
  | .q x => .q |x|

/-- Subtraction of numpy floats (nan propagates, inf - inf = nan). -/
def QF.sub : QF → QF → QF
  | .nan, _ => .nan
  | _, .nan => .nan
  | .inf, .inf => .nan
  | .inf, _ => .inf
  | .ninf, .ninf => .nan
  | .ninf, _ => .ninf
  | .q _, .inf => .ninf
  | .q _, .ninf => .inf
  | .q a, .q b => .q (a - b)

/-- Division of numpy floats. -/
def QF.div : QF → QF → QF
  | .nan, _ => .nan
  | _, .nan => .nan
  | .inf, .inf => .nan
  | .inf, .ninf => .nan
  | .ninf, .inf => .nan
  | .ninf, .ninf => .nan
  | .inf, .q b => if 0 ≤ b then .inf else .ninf
  | .ninf, .q b => if 0 ≤ b then .ninf else .inf
  | .q _, .inf => .q 0
  | .q _, .ninf => .q 0
  | .q a, .q b => fdiv a b

/-- A pandas `to_numeric(errors='coerce')` cell: `none` models NaN. -/
def QF.ofOpt : Option ℚ → QF
  | none => .nan
  | some x => .q x

end OnChain

namespace OnChain

/-! ## RiskScoringEngine (`src/backend/threat_risk_detector.py`) -/

/-- Python `round(x, 2)` idealized over exact rationals: round to 2 decimal
places, ties to even (Python's banker's rounding). -/
def pyRound2 (x : ℚ) : ℚ :=
  let y : ℚ := x * 100
  let f : ℤ := y.floor
  let r : ℚ := y - (f : ℚ)
  let n : ℤ :=
    if r < 1/2 then f
    else if 1/2 < r then f + 1
    else if f % 2 = 0 then f else f + 1
  (n : ℚ) / 100

def boolToQ (b : Bool) : ℚ := if b then 1 else 0

/-- The six risk-module variants (the `BaseRisk` subclasses), each carrying the
inputs its constructor stores. -/
inductive RiskModule where
  | governance (is_proxy access_control upgradeable_contract : Bool)
  | liquidity (unlocked_liquidity : Bool) (lockedLiquidityPercent creator_percent : ℚ)
  | holder (percentageHeldByTop10 : ℚ)
  | tokenSecurity (buy_tax_percentage : ℚ) (transfer_pausable is_blacklisted is_trusted : Bool)
  | market (volatility ath_change atl_change : ℚ) (marketCapRank : ℤ)
  | fraud (hacker drainer mixers tornado : Bool)
deriving DecidableEq

/-- `score()` of each module, as written in `threat_risk_detector.py`. -/
def RiskModule.score : RiskModule → ℚ
  | .governance is_proxy access_control upgradeable_contract =>
      let s := (1/2) * boolToQ access_control + (2/5) * boolToQ is_proxy
        + (3/10) * boolToQ upgradeable_contract
      pyRound2 (s / (12/10) * 100)
  | .liquidity unlocked_liquidity lockedLiquidityPercent creator_percent =>
      let unlocked_score : ℚ := if unlocked_liquidity then 100 else 0
      let locked_score : ℚ := max 0 (min 100 (100 - lockedLiquidityPercent))
      let creator_score : ℚ := max 0 (min 100 creator_percent)
      let s := (1/2) * unlocked_score + (3/10) * locked_score + (1/5) * creator_score
      pyRound2 (s / 1)
  | .holder percentageHeldByTop10 =>
      pyRound2 (max 0 (min 100 percentageHeldByTop10))
  | .tokenSecurity buy_tax_percentage transfer_pausable is_blacklisted is_trusted =>
      let tax_score : ℚ := max 0 (min 100 buy_tax_percentage)
      let pausable_score : ℚ := if transfer_pausable then 100 else 0
      let blacklist_score : ℚ := if is_blacklisted then 100 else 0
      let trusted_score : ℚ := if is_trusted then 0 else 100
      let s := (2/5) * tax_score + (1/5) * pausable_score + (3/10) * blacklist_score
        + (1/10) * trusted_score
      pyRound2 (s / 1)
  | .market volatility ath_change atl_change marketCapRank =>
      let vol_score : ℚ := max 0 (min 100 |volatility|)
      let ath_score : ℚ := max 0 (min 100 |ath_change|)
      let atl_score : ℚ := max 0 (min 100 |atl_change|)
      let rank_score : ℚ := max 0 (min 100 (((marketCapRank : ℚ) - 1) / 999 * 100))
      let s := (2/5) * vol_score + (1/5) * ath_score + (1/5) * atl_score + (1/5) * rank_score
      pyRound2 (s / 1)
  | .fraud hacker drainer mixers tornado =>
      let s := 100 * boolToQ hacker + 100 * boolToQ drainer + 100 * boolToQ mixers
        + 100 * boolToQ tornado
      pyRound2 (s / 4)

/-- `BaseRisk.label`. -/
def riskLabel (score : ℚ) : String :=
  if 0 ≤ score ∧ score ≤ 23 then "Low Risk"
  else if 23 < score ∧ score ≤ 50 then "Medium Risk"
  else if 50 < score ∧ score ≤ 100 then "High Risk"
  else "Unknown"

/-- `RiskEngine.overall_score` over the module values of the engine's dict. -/
def overallScore (modules : List RiskModule) : ℚ :=
  let scores := modules.map RiskModule.score
  if scores = [] then 0 else pyRound2 (scores.sum / (scores.length : ℚ))

/-- `RiskEngine.overall_risk`. -/
def overallRisk (modules : List RiskModule) : ℚ × String :=
  (overallScore modules, riskLabel (overallScore modules))

/-! ## Canonical swap records and their parsers
(`_parse_swap` in `src/backend/sandwich_attack.py` / `src/backend/wallet_behavior.py`,
`_parse_pool_data` in `src/frontend/backend/liquidity_pool.py`) -/

/-- A raw provider record as seen by `_parse_swap`. An outer `none` models an
absent key (`KeyError` on access); for the `float(...)`-parsed fields the inner
`none` models a present but unparsable value (`ValueError` in `float`). -/
structure RawSwap where
  transactionHash : Option String
  transactionIndex : Option ℤ
  transactionType : Option String
  blockNumber : Option ℤ
  blockTimestamp : Option String
  walletAddress : Option String
  pairAddress : Option String
  pairLabel : Option String
  baseToken : Option String
  quoteToken : Option String
  boughtAmount : Option (Option ℚ)
  boughtSymbol : Option String
  soldAmount : Option (Option ℚ)
  soldSymbol : Option String
  totalValueUsd : Option ℚ
  baseQuotePrice : Option (Option ℚ)
  subCategory : Option String
deriving DecidableEq

/-- The `SwapTransaction` dataclass (`wallet_behavior.py`; the
`sandwich_attack.py` variant is identical minus `sub_category`). -/
structure SwapTransaction where
  transaction_hash : String
  transaction_index : ℤ
  transaction_type : String
  block_number : ℤ
  block_timestamp : String
  wallet_address : String
  pair_address : String
  pair_label : String
  base_token : String
  quote_token : String
  bought_amount : ℚ
  bought_symbol : String
  sold_amount : ℚ
  sold_symbol : String
  total_value_usd : ℚ
  base_quote_price : ℚ
  sub_category : String
deriving DecidableEq

/-- `_parse_swap` (`wallet_behavior.py`): direct `[...]` access on mandatory
keys raises if absent, `float(...)` raises if unparsable (both modelled by
`none`); the wallet address is lower-cased, the sold amount taken absolute,
and `pairLabel`/`subCategory` default to the empty string via `.get`. -/
def parseSwap (r : RawSwap) : Option SwapTransaction :=
  match r.transactionHash, r.transactionIndex, r.transactionType, r.blockNumber,
    r.blockTimestamp, r.walletAddress, r.pairAddress, r.baseToken, r.quoteToken,
    r.boughtAmount, r.boughtSymbol, r.soldAmount, r.soldSymbol, r.totalValueUsd,
    r.baseQuotePrice with
  | some h, some ti, some tt, some bn, some bts, some w, some pa, some bt, some qt,
    some (some ba), some bs, some (some sa), some ss, some tv, some (some bqp) =>
      some
        { transaction_hash := h
          transaction_index := ti
          transaction_type := tt
          block_number := bn
          block_timestamp := bts
          wallet_address := lowerStr w
          pair_address := pa
          pair_label := r.pairLabel.getD ""
          base_token := bt
          quote_token := qt
          bought_amount := ba
          bought_symbol := bs
          sold_amount := |sa|
          sold_symbol := ss
          total_value_usd := tv
          base_quote_price := bqp
          sub_category := r.subCategory.getD "" }
  | _, _, _, _, _, _, _, _, _, _, _, _, _, _, _ => none

/-- The list comprehension `[self._parse_swap(swap) for swap in data['result']]`:
records left to right, the first record that raises aborts the whole batch. -/
def parseSwapBatch : List RawSwap → Option (List SwapTransaction)
  | [] => some []
  | r :: rs =>
      match parseSwap r, parseSwapBatch rs with
      | some s, some ss => some (s :: ss)
      | _, _ => none

/-- A raw record as consumed by `_parse_pool_data` (`liquidity_pool.py`).
Same conventions as `RawSwap`. -/
structure RawPoolSwap where
  transactionHash : Option String
  transactionIndex : Option ℤ
  transactionType : Option String
  blockNumber : Option ℤ
  blockTimestamp : Option String
  walletAddress : Option String
  subCategory : Option String
  baseTokenAmount : Option (Option ℚ)
  quoteTokenAmount : Option (Option ℚ)
  baseTokenPriceUsd : Option (Option ℚ)
  quoteTokenPriceUsd : Option (Option ℚ)
  baseQuotePrice : Option (Option ℚ)
  totalValueUsd : Option (Option ℚ)
deriving DecidableEq

/-- The `PoolSwap` dataclass (`liquidity_pool.py`). -/
structure PoolSwap where
  transaction_hash : String
  transaction_index : ℤ
  transaction_type : String
  block_number : ℤ
  block_timestamp : String
  wallet_address : String
  sub_category : String
  base_token_amount : ℚ
  quote_token_amount : ℚ
  base_token_price_usd : ℚ
  quote_token_price_usd : ℚ
  base_quote_price : ℚ
  total_value_usd : ℚ
deriving DecidableEq

/-- One record of `_parse_pool_data` (`liquidity_pool.py`): every field is a
mandatory `[...]` access (including `subCategory`); the quote token amount is
taken absolute, the wallet address lower-cased. -/
def parsePoolSwap (r : RawPoolSwap) : Option PoolSwap :=
  match r.transactionHash, r.transactionIndex, r.transactionType, r.blockNumber,
    r.blockTimestamp, r.walletAddress, r.subCategory, r.baseTokenAmount,
    r.quoteTokenAmount, r.baseTokenPriceUsd, r.quoteTokenPriceUsd,
    r.baseQuotePrice, r.totalValueUsd with
  | some h, some ti, some tt, some bn, some bts, some w, some sc, some (some bta),
    some (some qta), some (some btp), some (some qtp), some (some bqp), some (some tv) =>
      some
        { transaction_hash := h
          transaction_index := ti
          transaction_type := tt
          block_number := bn
          block_timestamp := bts
          wallet_address := lowerStr w
          sub_category := sc
          base_token_amount := bta
          quote_token_amount := |qta|
          base_token_price_usd := btp
          quote_token_price_usd := qtp
          base_quote_price := bqp
          total_value_usd := tv }
  | _, _, _, _, _, _, _, _, _, _, _, _, _ => none

/-- The swap-parsing loop of `_parse_pool_data`: the first record that raises
aborts the whole batch. -/
def parsePoolSwapBatch : List RawPoolSwap → Option (List PoolSwap)
  | [] => some []
  | r :: rs =>
      match parsePoolSwap r, parsePoolSwapBatch rs with
      | some s, some ss => some (s :: ss)
      | _, _ => none

/-! ## SandwichAttackAnalyzer (`src/backend/sandwich_attack.py`) -/

/-- The `SandwichAttack` dataclass. -/
structure SandwichAttack where
  attacker_address : String
  victim_address : String
  block_number : ℤ
  front_run_tx : SwapTransaction
  victim_tx : SwapTransaction
  back_run_tx : SwapTransaction
  profit_usd : ℚ
  attack_timestamp : String
deriving DecidableEq

/-- `_calculate_profit`. -/
def calculateProfit (front_run back_run : SwapTransaction) : ℚ :=
  back_run.total_value_usd - front_run.total_value_usd

/-- `_group_by_block`: group by block number (first-appearance order of
blocks), each block's transactions sorted by transaction index. -/
def groupByBlock (swaps : List SwapTransaction) : List (ℤ × List SwapTransaction) :=
  (groupPairsBy (·.block_number) swaps).map
    (fun p => (p.1, stableInsSort (fun a b => a.transaction_index < b.transaction_index) p.2))

/-- The victim filter inside `_detect_sandwich_in_block`: other wallets'
transactions on the front-run's pair with index strictly between the
attacker's two transactions. -/
def sandwichVictims (attacker_wallet : String) (front_run back_run : SwapTransaction)
    (transactions : List SwapTransaction) : List SwapTransaction :=
  transactions.filter (fun tx =>
    tx.wallet_address ≠ attacker_wallet ∧
    tx.pair_address = front_run.pair_address ∧
    front_run.transaction_index < tx.transaction_index ∧
    tx.transaction_index < back_run.transaction_index)

/-- `_detect_sandwich_in_block`: group the block's transactions by wallet,
keep wallets with at least two transactions; for every adjacent pair of the
wallet's transactions that is a buy followed by a sell on the same pair,
emit one `SandwichAttack` per victim transaction. -/
def detectSandwichInBlock (transactions : List SwapTransaction) : List SandwichAttack :=
  let wallet_txs := groupPairsBy (·.wallet_address) transactions
  let potential_attackers := wallet_txs.filter (fun p => 2 ≤ p.2.length)
  potential_attackers.flatMap (fun p =>
    (p.2.zip p.2.tail).flatMap (fun fb =>
      if fb.1.transaction_type = "buy" ∧ fb.2.transaction_type = "sell" ∧
          fb.1.pair_address = fb.2.pair_address then
        (sandwichVictims p.1 fb.1 fb.2 transactions).map (fun victim_tx =>
          { attacker_address := p.1
            victim_address := victim_tx.wallet_address
            block_number := fb.1.block_number
            front_run_tx := fb.1
            victim_tx := victim_tx
            back_run_tx := fb.2
            profit_usd := calculateProfit fb.1 fb.2
            attack_timestamp := fb.1.block_timestamp })
      else []))

/-- The detection core of `SandwichAttackAnalyzer.analyze` (after the fetch):
blocks in descending block-number order, blocks with fewer than 3
transactions skipped. -/
def sandwichAnalyze (swaps : List SwapTransaction) : List SandwichAttack :=
  let blocks := groupByBlock swaps
  let sorted_blocks := stableInsSort (fun a b => b.1 < a.1) blocks
  (sorted_blocks.filter (fun b => 3 ≤ b.2.length)).flatMap (fun b => detectSandwichInBlock b.2)

/-! ## WashTradingDetector (`src/frontend/backend/transaction_anomaly.py`) -/

/-- A raw transaction row as the pandas detectors see it after
`pd.to_datetime` (timestamps as seconds, `ℤ`) and
`pd.to_numeric(errors='coerce')` (`none` = NaN price). -/
structure AnomTx where
  blockTimestamp : ℤ
  transactionType : String
  blockNumber : ℤ
  walletAddress : String
  pairAddress : String
  pairLabel : String
  subCategory : String
  totalValueUsd : ℚ
  baseQuotePrice : Option ℚ
deriving DecidableEq

/-- `WashTradingDetector.__init__` parameters. -/
structure WashConfig where
  time_window_minutes : ℤ := 60
  min_round_trips : ℕ := 3
  price_deviation_threshold : ℚ := 2/100
  min_same_block_trades : ℕ := 5
  min_volume_threshold : ℚ := 1000
deriving DecidableEq

/-- One matched round trip (the dict appended in `_analyze_wallet_pattern`). -/
structure RoundTrip where
  buy_time : ℤ
  sell_time : ℤ
  buy_value : ℚ
  sell_value : ℚ
  price_diff : QF
  time_diff_seconds : ℤ
deriving DecidableEq

/-- The buy×sell scan of `_analyze_wallet_pattern`: for every buy, all sells
of the same wallet at or after the buy and within the window; a pair counts
when both prices are non-NaN and `|buy - sell| / buy <= threshold` (at a zero
buy price the numpy quotient is inf or nan, so the comparison is false). -/
def roundTripPairs (cfg : WashConfig) (wallet_txs : List AnomTx) : List RoundTrip :=
  let buys := wallet_txs.filter (·.transactionType = "buy")
  let sells := wallet_txs.filter (·.transactionType = "sell")
  buys.flatMap (fun buy =>
    (sells.filter (fun s =>
        buy.blockTimestamp ≤ s.blockTimestamp ∧
        s.blockTimestamp ≤ buy.blockTimestamp + cfg.time_window_minutes * 60)).filterMap
      (fun sell =>
        match buy.baseQuotePrice, sell.baseQuotePrice with
        | some pb, some ps =>
            let price_diff := fdiv |pb - ps| pb
            if price_diff.leQ cfg.price_deviation_threshold then
              some { buy_time := buy.blockTimestamp
                     sell_time := sell.blockTimestamp
                     buy_value := buy.totalValueUsd
                     sell_value := sell.totalValueUsd
                     price_diff := price_diff
                     time_diff_seconds := sell.blockTimestamp - buy.blockTimestamp }
            else none
        | _, _ => none))

/-- The per-wallet metrics dict returned by `_analyze_wallet_pattern`. -/
structure WalletPattern where
  is_suspicious : Bool
  is_likely_mev : Bool
  round_trips : ℕ
  same_block_trades : ℕ
  total_volume : ℚ
  avg_trade_size : ℚ
  num_trades : ℕ
  avg_round_trip_time : ℚ
  patterns : List RoundTrip
deriving DecidableEq

/-- `_analyze_wallet_pattern`: `same_block_trades` counts the wallet's rows
whose block number occurs at least twice in the group
(`duplicated(keep=False)`). -/
def analyzeWalletPattern (cfg : WashConfig) (wallet_txs : List AnomTx) : WalletPattern :=
  let round_trips := roundTripPairs cfg wallet_txs
  let same_block_trades :=
    (wallet_txs.filter (fun t =>
      2 ≤ wallet_txs.countP (fun u => u.blockNumber = t.blockNumber))).length
  let total_volume := (wallet_txs.map (·.totalValueUsd)).sum
  let avg_trade_size := total_volume / (wallet_txs.length : ℚ)
  let is_likely_mev :=
    2 ≤ same_block_trades ∧ avg_trade_size < 100 ∧ total_volume < 500
  let is_suspicious :=
    (cfg.min_round_trips ≤ round_trips.length ∧ cfg.min_volume_threshold ≤ total_volume) ∨
    (cfg.min_same_block_trades ≤ same_block_trades ∧ cfg.min_volume_threshold ≤ total_volume)
  { is_suspicious := is_suspicious
    is_likely_mev := is_likely_mev
    round_trips := round_trips.length
    same_block_trades := same_block_trades
    total_volume := total_volume
    avg_trade_size := avg_trade_size
    num_trades := wallet_txs.length
    avg_round_trip_time :=
      if round_trips = [] then 0
      else (round_trips.map (fun rt => (rt.time_diff_seconds : ℚ))).sum / (round_trips.length : ℚ)
    patterns := round_trips.take 5 }

/-- The dict returned by `WashTradingDetector.detect`. The empty-input early
return carries different keys than the full return, hence the `Option`
fields (`none` = key absent from the Python dict). -/
structure WashResult where
  detected_count : ℕ
  suspicious_wallets : List (String × WalletPattern)
  total_suspicious_volume : Option ℚ
  mev_bots_filtered : Option ℕ
  false_positive_note : Option String
  note : Option String
deriving DecidableEq

/-- The wallet group of `df.groupby('walletAddress')` for wallet `w`: the
rows of the timestamp-sorted frame with that wallet, in frame order. -/
def washGroup (transactions : List AnomTx) (w : String) : List AnomTx :=
  (stableInsSort (fun a b => a.blockTimestamp < b.blockTimestamp) transactions).filter
    (·.walletAddress = w)

/-- The group keys of `df.groupby('walletAddress')`, sorted ascending as
pandas does. -/
def washWallets (transactions : List AnomTx) : List String :=
  stableInsSort (fun a b => ltChars a.data b.data)
    (uniqKeys ((stableInsSort (fun a b => a.blockTimestamp < b.blockTimestamp)
      transactions).map (·.walletAddress)))

/-- `WashTradingDetector.detect`. -/
def washDetect (cfg : WashConfig) (transactions : List AnomTx) : WashResult :=
  match transactions with
  | [] =>
      { detected_count := 0
        suspicious_wallets := []
        total_suspicious_volume := none
        mev_bots_filtered := none
        false_positive_note := some ""
        note := none }
  | _ =>
      let analyzed := (washWallets transactions).map
        (fun w => (w, analyzeWalletPattern cfg (washGroup transactions w)))
      let suspicious := analyzed.filter
        (fun p => p.2.is_suspicious && !p.2.is_likely_mev)
      let mev_bots := analyzed.filter
        (fun p => p.2.is_suspicious && p.2.is_likely_mev)
      { detected_count := suspicious.length
        suspicious_wallets := suspicious
        total_suspicious_volume := some ((suspicious.map (·.2.total_volume)).sum)
        mev_bots_filtered := some mev_bots.length
        false_positive_note := none
        note := some ("Filtered out " ++ toString mev_bots.length
          ++ " likely MEV/arbitrage bots") }

/-! ## PriceManipulationDetector (`transaction_anomaly.py`) -/

/-- `PriceManipulationDetector.__init__` parameters. -/
structure PriceConfig where
  price_spike_threshold : ℚ := 15/100
  volume_spike_multiplier : ℚ := 10
  min_manipulation_value : ℚ := 5000
deriving DecidableEq

def alistFind (st : List (String × σ)) (k : String) : Option σ :=
  (st.find? (fun p => p.1 = k)).map (·.2)

def alistSet (st : List (String × σ)) (k : String) (v : σ) : List (String × σ) :=
  (k, v) :: st.filter (fun p => p.1 ≠ k)

/-- A frame row annotated with the `price_change` and `volume_spike` columns. -/
structure PriceRow where
  tx : AnomTx
  price_change : QF
  volume_spike : QF
deriving DecidableEq

/-- Row-by-row computation of `pct_change` per pair (with pandas' forward-fill
of NaN prices) and of the 20-trade rolling mean of `totalValueUsd` per pair
(`min_periods=1`): the first state maps each pair to its last forward-filled
price, the second to the up-to-20 most recent values (most recent first). -/
def priceAnnotate : List AnomTx → List (String × Option ℚ) → List (String × List ℚ) →
    List PriceRow
  | [], _, _ => []
  | t :: ts, pstate, vstate =>
      let prev := (alistFind pstate t.pairAddress).getD none
      let padded_cur := match t.baseQuotePrice with
        | some c => some c
        | none => prev
      let pc := match prev, padded_cur with
        | some p, some c => fdiv (c - p) p
        | _, _ => QF.nan
      let window := (t.totalValueUsd :: (alistFind vstate t.pairAddress).getD []).take 20
      let volume_ma := window.sum / (window.length : ℚ)
      { tx := t, price_change := pc, volume_spike := fdiv t.totalValueUsd volume_ma } ::
        priceAnnotate ts (alistSet pstate t.pairAddress padded_cur)
          (alistSet vstate t.pairAddress window)

/-- One entry of the `manipulations` list of `PriceManipulationDetector.detect`. -/
structure ManipulationEvent where
  timestamp : ℤ
  block : ℤ
  price_change : QF
  volume_spike : QF
  wallet : String
  pair : String
  value_usd : ℚ
deriving DecidableEq

/-- One entry of the `coordinated` list of `_detect_coordinated_trading`. -/
structure CoordinatedEvent where
  block : ℤ
  timestamp : ℤ
  num_wallets : ℕ
  total_value : ℚ
  wallets : List String
deriving DecidableEq

/-- The dict returned by `PriceManipulationDetector.detect` (`highest_spike`
is absent from the empty-input early return). -/
structure PriceResult where
  manipulation_events : List ManipulationEvent
  coordinated_trading : List CoordinatedEvent
  total_events : ℕ
  highest_spike : Option QF
deriving DecidableEq

/-- `_detect_coordinated_trading`: per block (pandas groupby, blocks
ascending), at least 5 unique wallets and combined value over 10000. -/
def detectCoordinatedTrading (df : List AnomTx) : List CoordinatedEvent :=
  (stableInsSort (fun a b => a < b) (uniqKeys (df.map (·.blockNumber)))).filterMap
    (fun bn =>
      let group := df.filter (·.blockNumber = bn)
      let unique_wallets := (uniqKeys (group.map (·.walletAddress))).length
      let total_value := (group.map (·.totalValueUsd)).sum
      if 5 ≤ unique_wallets ∧ 10000 < total_value then
        match group with
        | g0 :: _ => some
            { block := bn
              timestamp := g0.blockTimestamp
              num_wallets := unique_wallets
              total_value := total_value
              wallets := (group.map (·.walletAddress)).take 10 }
        | [] => none
      else none)

/-- Python `max(values, default=0)` over numpy floats. -/
def qfListMax : List QF → QF
  | [] => QF.q 0
  | x :: xs => xs.foldl (fun m y => if QF.ltQF m y then y else m) x

/-- `PriceManipulationDetector.detect`. -/
def priceDetect (cfg : PriceConfig) (transactions : List AnomTx) : PriceResult :=
  match transactions with
  | [] =>
      { manipulation_events := []
        coordinated_trading := []
        total_events := 0
        highest_spike := none }
  | _ =>
      let df := stableInsSort (fun a b => a.blockNumber < b.blockNumber) transactions
      let rows := priceAnnotate df [] []
      let manipulations := rows.filterMap (fun r =>
        if r.price_change.abs.gtQ cfg.price_spike_threshold &&
            r.volume_spike.gtQ cfg.volume_spike_multiplier &&
            decide (cfg.min_manipulation_value < r.tx.totalValueUsd) then
          some
            { timestamp := r.tx.blockTimestamp
              block := r.tx.blockNumber
              price_change := r.price_change
              volume_spike := r.volume_spike
              wallet := r.tx.walletAddress
              pair := r.tx.pairLabel
              value_usd := r.tx.totalValueUsd }
        else none)
      let coordinated := detectCoordinatedTrading df
      { manipulation_events := manipulations
        coordinated_trading := coordinated
        total_events := manipulations.length + coordinated.length
        highest_spike := some (qfListMax (manipulations.map (fun m => m.price_change.abs))) }

/-! ## PumpAndDumpDetector (`transaction_anomaly.py`) -/

/-- `PumpAndDumpDetector.__init__` parameters. -/
structure PumpConfig where
  pump_threshold : ℚ := 1/2
  dump_threshold : ℚ := 3/10
  min_wallets : ℕ := 10
  time_window_hours : ℤ := 4
deriving DecidableEq

/-- Forward-fill of a NaN-able series (pandas `fill_method='pad'`). -/
def forwardFill : List (Option ℚ) → Option ℚ → List (Option ℚ)
  | [], _ => []
  | x :: xs, last =>
      let cur := match x with
        | some v => some v
        | none => last
      cur :: forwardFill xs cur

/-- The `price_1h_change` column: per pair group,
`pct_change(periods=min(len(group)-1, 10))` on the forward-filled price
series, placed back at the row's position in the frame. -/
def pumpAnnotate (df : List AnomTx) : List (AnomTx × QF) :=
  df.enum.map (fun it =>
    let t := it.2
    let g := df.filter (·.pairAddress = t.pairAddress)
    let pos := (df.take it.1).countP (·.pairAddress = t.pairAddress)
    let p := min (g.length - 1) 10
    let padded := forwardFill (g.map (·.baseQuotePrice)) none
    let pc :=
      if pos < p then QF.nan
      else match padded.getD (pos - p) none, padded.getD pos none with
        | some a, some b => fdiv (b - a) a
        | _, _ => QF.nan
    (t, pc))

/-- One detected scheme of `PumpAndDumpDetector.detect`. -/
structure PumpScheme where
  pump_time : ℤ
  pump_price_increase : QF
  dump_price_decrease : QF
  dump_wallets : ℕ
  dump_volume : ℚ
  confidence : ℚ
deriving DecidableEq

/-- `_calculate_confidence`: four sub-scores of at most 0.25 each (0.15 at the
lower tier), clamped to 1. -/
def calcPumpConfidence (cfg : PumpConfig) (num_dumpers : ℕ) (pump_size dump_size : QF)
    (volume : ℚ) : ℚ :=
  let s1 : ℚ := if 20 ≤ num_dumpers then 1/4
    else if cfg.min_wallets ≤ num_dumpers then 15/100 else 0
  let s2 : ℚ := if pump_size.geQ 1 then 1/4
    else if pump_size.geQ cfg.pump_threshold then 15/100 else 0
  let s3 : ℚ := if dump_size.geQ (1/2) then 1/4
    else if dump_size.geQ cfg.dump_threshold then 15/100 else 0
  let s4 : ℚ := if 100000 ≤ volume then 1/4
    else if 50000 ≤ volume then 15/100 else 0
  min (s1 + s2 + s3 + s4) 1

/-- The dict returned by `PumpAndDumpDetector.detect`. -/
structure PumpResult where
  detected_schemes : List PumpScheme
  num_schemes : ℕ
  high_confidence : List PumpScheme
deriving DecidableEq

/-- `PumpAndDumpDetector.detect` (fewer than 50 events: early zero result). -/
def pumpDetect (cfg : PumpConfig) (transactions : List AnomTx) : PumpResult :=
  if transactions.length < 50 then
    { detected_schemes := [], num_schemes := 0, high_confidence := [] }
  else
    let df := stableInsSort (fun a b => a.blockTimestamp < b.blockTimestamp) transactions
    let pumps := (pumpAnnotate df).filter (fun r => r.2.gtQ cfg.pump_threshold)
    let schemes := pumps.filterMap (fun pr =>
      let dump_window := df.filter (fun t =>
        pr.1.blockTimestamp < t.blockTimestamp ∧
        t.blockTimestamp ≤ pr.1.blockTimestamp + cfg.time_window_hours * 3600)
      let sell_all := dump_window.filter (·.subCategory = "sellAll")
      let unique_dumpers := (uniqKeys (sell_all.map (·.walletAddress))).length
      let dump_volume := (sell_all.map (·.totalValueUsd)).sum
      if cfg.min_wallets ≤ unique_dumpers ∧ 50000 < dump_volume then
        match dump_window.getLast? with
        | some last =>
            let price_after := QF.ofOpt last.baseQuotePrice
            let pump_price := QF.ofOpt pr.1.baseQuotePrice
            let price_drop := (pump_price.sub price_after).div pump_price
            if price_drop.geQ cfg.dump_threshold then
              some
                { pump_time := pr.1.blockTimestamp
                  pump_price_increase := pr.2
                  dump_price_decrease := price_drop
                  dump_wallets := unique_dumpers
                  dump_volume := dump_volume
                  confidence := calcPumpConfidence cfg unique_dumpers pr.2 price_drop
                    dump_volume }
            else none
        | none => none
      else none)
    { detected_schemes := schemes
      num_schemes := schemes.length
      high_confidence := schemes.filter (fun s => 3/4 < s.confidence) }

/-! ## LiquidityPoolManipulationDetector (`src/frontend/backend/liquidity_pool.py`) -/

/-- The `LiquidityManipulation` dataclass. The formatted `description`
f-string is kept as its fixed text (numeric interpolation elided). -/
structure LiquidityManipulation where
  manipulation_type : String
  severity : String
  timestamp : String
  block_number : ℤ
  involved_wallets : List String
  total_value_usd : ℚ
  description : String
  evidence_transactions : List PoolSwap
  risk_score : ℚ
deriving DecidableEq

/-- `_detect_rug_pull_pattern`: per wallet, at least 3 sells totalling over
10000, and among the wallet's 5 most-recent-by-block transactions a sell
ratio above 0.7. -/
def detectRugPullPattern (swaps : List PoolSwap) : List LiquidityManipulation :=
  (groupPairsBy (·.wallet_address) swaps).flatMap (fun p =>
    let sells := p.2.filter (·.transaction_type = "sell")
    if 3 ≤ sells.length then
      let total_sell_value := (sells.map (·.total_value_usd)).sum
      if 10000 < total_sell_value then
        let recent_txs := (stableInsSort (fun a b => b.block_number < a.block_number) p.2).take 5
        let sell_ratio :=
          ((recent_txs.filter (·.transaction_type = "sell")).length : ℚ) /
            (recent_txs.length : ℚ)
        if 7/10 < sell_ratio then
          match sells with
          | s0 :: _ =>
              [{ manipulation_type := "Potential Rug Pull"
                 severity := if 50000 < total_sell_value then "HIGH" else "MEDIUM"
                 timestamp := s0.block_timestamp
                 block_number := s0.block_number
                 involved_wallets := [p.1]
                 total_value_usd := total_sell_value
                 description := "Wallet dumping large amounts"
                 evidence_transactions := sells.take 5
                 risk_score := min 100 (total_sell_value / 1000 + sell_ratio * 50) }]
          | [] => []
        else []
      else []
    else [])

/-- `_detect_coordinated_dump`: per block, at least 3 sells from at least 3
unique wallets totalling over 5000. `set(...)` is determinized to
first-appearance order. -/
def detectCoordinatedDump (swaps : List PoolSwap) : List LiquidityManipulation :=
  (groupPairsBy (·.block_number) swaps).flatMap (fun p =>
    let sells := p.2.filter (·.transaction_type = "sell")
    if 3 ≤ sells.length then
      let unique_wallets := (uniqKeys (sells.map (·.wallet_address))).length
      let total_value := (sells.map (·.total_value_usd)).sum
      if 3 ≤ unique_wallets ∧ 5000 < total_value then
        match sells with
        | s0 :: _ =>
            [{ manipulation_type := "Coordinated Dump"
               severity := if 20000 < total_value then "HIGH" else "MEDIUM"
               timestamp := s0.block_timestamp
               block_number := p.1
               involved_wallets := uniqKeys (sells.map (·.wallet_address))
               total_value_usd := total_value
               description := "Wallets coordinated selling in same block"
               evidence_transactions := sells
               risk_score := min 100 ((unique_wallets : ℚ) * 15 + total_value / 500) }]
        | [] => []
      else []
    else [])

/-- The detection core of `LiquidityPoolManipulationDetector.analyze`
(after the fetch/parse): both sub-detectors, sorted by risk score descending. -/
def liquidityPoolAnalyze (swaps : List PoolSwap) : List LiquidityManipulation :=
  stableInsSort (fun a b => b.risk_score < a.risk_score)
    (detectRugPullPattern swaps ++ detectCoordinatedDump swaps)

/-! ## ConcentratedLiquidityAttackDetector (`liquidity_pool.py`) -/

/-- The `ConcentratedAttack` dataclass. -/
structure ConcentratedAttack where
  attacker_address : String
  attack_type : String
  block_number : ℤ
  timestamp : String
  transactions_involved : List PoolSwap
  price_impact : ℚ
  profit_estimate : ℚ
  attack_confidence : ℚ
deriving DecidableEq

/-- `_detect_price_manipulation`: for each consecutive pair (fetch order) the
price impact is a plain Python float division by the next trade's
`base_quote_price`, which raises `ZeroDivisionError` on a zero price
(modelled by `none`). -/
def detectPriceManipulationAttacks (swaps : List PoolSwap) :
    Option (List ConcentratedAttack) :=
  (swaps.zip swaps.tail).foldlM (fun acc cn =>
    let current := cn.1
    let next_tx := cn.2
    if next_tx.base_quote_price = 0 then none
    else
      let price_change :=
        |(current.base_quote_price - next_tx.base_quote_price) / next_tx.base_quote_price| * 100
      if 5000 < current.total_value_usd ∧ 5 < price_change then
        some (acc ++
          [{ attacker_address := current.wallet_address
             attack_type := "Price Manipulation"
             block_number := current.block_number
             timestamp := current.block_timestamp
             transactions_involved := [current]
             price_impact := price_change
             profit_estimate := 0
             attack_confidence := min 100 (price_change * 10 + current.total_value_usd / 1000) }])
      else some acc) []

/-- `_detect_liquidity_sniping`: per wallet, at least 3 buys whose price
variance is below `(avg_price * 0.1)^2` and total value over 3000. -/
def detectLiquiditySniping (swaps : List PoolSwap) : List ConcentratedAttack :=
  (groupPairsBy (·.wallet_address) swaps).flatMap (fun p =>
    let buys := p.2.filter (·.transaction_type = "buy")
    if 3 ≤ buys.length then
      match buys with
      | first :: _ =>
          let prices := buys.map (·.base_quote_price)
          let avg_price := prices.sum / (prices.length : ℚ)
          let price_variance :=
            (prices.map (fun x => (x - avg_price) * (x - avg_price))).sum / (prices.length : ℚ)
          if price_variance < (avg_price * (1/10)) * (avg_price * (1/10)) then
            let total_value : ℚ := (buys.map (·.total_value_usd)).sum
            if 3000 < total_value then
              [{ attacker_address := p.1
                 attack_type := "Liquidity Sniping"
                 block_number := first.block_number
                 timestamp := first.block_timestamp
                 transactions_involved := buys
                 price_impact := 0
                 profit_estimate := 0
                 attack_confidence := min 100 (50 + (buys.length : ℚ) * 10) }]
            else []
          else []
      | [] => []
    else [])

/-- The detection core of `ConcentratedLiquidityAttackDetector.analyze`,
sorted by confidence descending; a `ZeroDivisionError` in the price scan
propagates. -/
def concentratedAnalyze (swaps : List PoolSwap) : Option (List ConcentratedAttack) :=
  (detectPriceManipulationAttacks swaps).map (fun price_attacks =>
    stableInsSort (fun a b => b.attack_confidence < a.attack_confidence)
      (price_attacks ++ detectLiquiditySniping swaps))

/-! ## PoolDominationDetector (`liquidity_pool.py`) -/

/-- The per-wallet counters accumulated by `PoolDominationDetector.analyze`. -/
structure WalletStats where
  txs : ℕ
  volume : ℚ
  buys : ℕ
  sells : ℕ
deriving DecidableEq

/-- The `wallet_stats` entry for one wallet. -/
def poolWalletStats (swaps : List PoolSwap) (w : String) : WalletStats :=
  let wtxs := swaps.filter (·.wallet_address = w)
  { txs := wtxs.length
    volume := (wtxs.map (·.total_value_usd)).sum
    buys := (wtxs.filter (·.transaction_type = "buy")).length
    sells := (wtxs.filter (fun t => ¬ t.transaction_type = "buy")).length }

/-- The wallet's transaction-count share, in percent. -/
def poolTxPercentage (swaps : List PoolSwap) (w : String) : ℚ :=
  ((poolWalletStats swaps w).txs : ℚ) / (swaps.length : ℚ) * 100

/-- The wallet's volume share, in percent (0 when the total volume is not
positive — the guarded division). -/
def poolVolumePercentage (swaps : List PoolSwap) (w : String) : ℚ :=
  let total_volume := (swaps.map (·.total_value_usd)).sum
  if 0 < total_volume then (poolWalletStats swaps w).volume / total_volume * 100 else 0

/-- The `PoolDomination` dataclass. -/
structure PoolDomination where
  dominant_wallet : String
  domination_percentage : ℚ
  total_transactions : ℕ
  wallet_transactions : ℕ
  total_volume_usd : ℚ
  wallet_volume_usd : ℚ
  transaction_pattern : String
  risk_level : String
  manipulation_likelihood : ℚ
deriving DecidableEq

/-- The detection core of `PoolDominationDetector.analyze` (after the
fetch/parse): wallets in first-appearance order, flagged on a transaction
share strictly above 20% or a volume share strictly above 30%, sorted by
domination percentage descending. -/
def poolDominationAnalyze (swaps : List PoolSwap) : List PoolDomination :=
  let total_volume := (swaps.map (·.total_value_usd)).sum
  let dominations := (uniqKeys (swaps.map (·.wallet_address))).filterMap (fun w =>
    let stats := poolWalletStats swaps w
    let tx_percentage := poolTxPercentage swaps w
    let volume_percentage := poolVolumePercentage swaps w
    if 20 < tx_percentage ∨ 30 < volume_percentage then
      let buy_ratio := if 0 < stats.txs then (stats.buys : ℚ) / (stats.txs : ℚ) else 0
      let pattern :=
        if 4/5 < buy_ratio then "Accumulation (Heavy Buying)"
        else if buy_ratio < 1/5 then "Distribution (Heavy Selling)"
        else "Mixed Trading"
      let domination_score := max tx_percentage volume_percentage
      let rl : String × ℚ :=
        if 50 < domination_score then ("CRITICAL", 80)
        else if 35 < domination_score then ("HIGH", 60)
        else ("MEDIUM", 40)
      some
        { dominant_wallet := w
          domination_percentage := domination_score
          total_transactions := swaps.length
          wallet_transactions := stats.txs
          total_volume_usd := total_volume
          wallet_volume_usd := stats.volume
          transaction_pattern := pattern
          risk_level := rl.1
          manipulation_likelihood := rl.2 }
    else none)
  stableInsSort (fun a b => b.domination_percentage < a.domination_percentage) dominations

/-! ## InsiderTradingDetector (`src/backend/wallet_behavior.py`) -/

/-- The `InsiderTrade` dataclass. -/
structure InsiderTrade where
  wallet_address : String
  token_address : String
  token_symbol : String
  entry_transaction : SwapTransaction
  current_position_value : ℚ
  entry_price : ℚ
  current_price : ℚ
  price_change_percent : ℚ
  time_since_entry : String
  suspicion_score : ℚ
  flags : List String
deriving DecidableEq

/-- Python `min(txs, key=lambda x: x.block_number)`: the first minimal
element. -/
def minByBlock (l : List SwapTransaction) : Option SwapTransaction :=
  l.foldl (fun acc x =>
    match acc with
    | none => some x
    | some m => if x.block_number < m.block_number then some x else some m) none

/-- One step of Python `max(txs, key=lambda x: x.block_number)`: keep the
current maximum unless the next element's block is strictly larger (so the
first maximal element wins). -/
def maxStep (acc : Option SwapTransaction) (x : SwapTransaction) :
    Option SwapTransaction :=
  match acc with
  | none => some x
  | some m => if m.block_number < x.block_number then some x else some m

/-- Python `max(txs, key=lambda x: x.block_number)`: the first maximal
element. -/
def maxByBlock (l : List SwapTransaction) : Option SwapTransaction :=
  l.foldl maxStep none

/-- `_calculate_suspicion_score`. -/
def calculateSuspicionScore (trade : InsiderTrade) : ℚ :=
  let s1 : ℚ :=
    if 50 < trade.price_change_percent then 30
    else if 30 < trade.price_change_percent then 20
    else if 15 < trade.price_change_percent then 10 else 0
  let s2 : ℚ := if trade.entry_transaction.sub_category = "newPosition" then 15 else 0
  let s3 : ℚ :=
    if 50000 < trade.entry_transaction.total_value_usd then 20
    else if 10000 < trade.entry_transaction.total_value_usd then 10 else 0
  let s4 : ℚ :=
    if strHasSub trade.time_since_entry "hours" || strHasSub trade.time_since_entry "minutes"
    then 15 else 0
  min (s1 + s2 + s3 + s4) 100

/-- `_get_flags`. -/
def getFlags (trade : InsiderTrade) : List String :=
  (if 50 < trade.price_change_percent then ["MASSIVE GAINS (>50%)"]
   else if 30 < trade.price_change_percent then ["Large gains (>30%)"] else []) ++
  (if trade.entry_transaction.sub_category = "newPosition" then ["New position entry"]
   else []) ++
  (if 50000 < trade.entry_transaction.total_value_usd then ["Large position (>$50k)"]
   else if 10000 < trade.entry_transaction.total_value_usd then
     ["Significant position (>$10k)"] else []) ++
  (if strHasSub trade.time_since_entry "hours" || strHasSub trade.time_since_entry "minutes"
   then ["Quick profit"] else [])

/-- The detection core of `InsiderTradingDetector.analyze_wallet` after the
fetch/parse. `timeStr` abstracts the wall-clock `time_since_entry`
formatting (`datetime.now()` is outside the pure core).
The per-position `price_change` is a plain Python division by
`entry_price`: a zero entry price raises `ZeroDivisionError` (`none`). -/
def insiderAnalyzeWallet (timeStr : SwapTransaction → String) (wallet_address : String)
    (swaps : List SwapTransaction) (min_suspicion_score : ℚ) :
    Option (List InsiderTrade) :=
  let buys := swaps.filter (·.transaction_type = "buy")
  let positions := groupPairsBy (fun s => (s.base_token, s.bought_symbol)) buys
  (positions.foldlM (fun (acc : List InsiderTrade)
      (g : (String × String) × List SwapTransaction) =>
    match minByBlock g.2, maxByBlock g.2 with
    | some entry, some latest =>
        if entry.base_quote_price = 0 then none
        else
          let price_change :=
            ((latest.base_quote_price - entry.base_quote_price) / entry.base_quote_price) * 100
          let trade0 : InsiderTrade :=
            { wallet_address := wallet_address
              token_address := g.1.1
              token_symbol := g.1.2
              entry_transaction := entry
              current_position_value := latest.total_value_usd
              entry_price := entry.base_quote_price
              current_price := latest.base_quote_price
              price_change_percent := price_change
              time_since_entry := timeStr entry
              suspicion_score := 0
              flags := [] }
          let trade :=
            { trade0 with
              suspicion_score := calculateSuspicionScore trade0
              flags := getFlags trade0 }
          if min_suspicion_score ≤ trade.suspicion_score then some (acc ++ [trade])
          else some acc
    | _, _ => some acc) []).map
    (fun trades => stableInsSort (fun a b => b.suspicion_score < a.suspicion_score) trades)

/-! ## SnipingBotDetector (`wallet_behavior.py`) -/

/-- The `SnipingBot` dataclass. -/
structure SnipingBot where
  wallet_address : String
  total_snipes : ℕ
  successful_snipes : ℕ
  success_rate : ℚ
  total_volume_usd : ℚ
  avg_entry_speed_blocks : ℚ
  tokens_sniped : List String
  recent_snipes : List SwapTransaction
  bot_confidence_score : ℚ
deriving DecidableEq

/-- The buy transactions of the wallet's history. -/
def buysOf (swaps : List SwapTransaction) : List SwapTransaction :=
  swaps.filter (·.transaction_type = "buy")

/-- The buys tagged `newPosition` (potential snipes). -/
def newPositionsOf (swaps : List SwapTransaction) : List SwapTransaction :=
  (buysOf swaps).filter (·.sub_category = "newPosition")

/-- `max(sells, key=lambda x: x.block_number)` over all sells of the token in
the whole fetched history (`none` when the token was never sold). -/
def latestSellOfToken (swaps : List SwapTransaction) (tok : String) :
    Option SwapTransaction :=
  maxByBlock (swaps.filter (fun s => s.transaction_type = "sell" ∧ s.base_token = tok))

/-- The per-snipe success check of `SnipingBotDetector.analyze_wallet`: the
latest sell of the token (anywhere in the history) at a strictly higher
price, or no sell at all (still holding, counted as successful). -/
def snipeSuccessful (swaps : List SwapTransaction) (snipe : SwapTransaction) : Bool :=
  match latestSellOfToken swaps snipe.base_token with
  | none => true
  | some latest_sell => snipe.base_quote_price < latest_sell.base_quote_price

/-- `_calculate_bot_confidence`. -/
def calculateBotConfidence (total_snipes unique_tokens : ℕ)
    (new_position_ratio avg_entry_speed : ℚ) : ℚ :=
  let s1 : ℚ := if 7/10 < new_position_ratio then 30
    else if 1/2 < new_position_ratio then 20 else 0
  let s2 : ℚ := if 10 < unique_tokens then 25 else if 5 < unique_tokens then 15 else 0
  let s3 : ℚ := if 20 < total_snipes then 20 else if 10 < total_snipes then 10 else 0
  let s4 : ℚ := if avg_entry_speed < 50 then 25 else if avg_entry_speed < 100 then 15 else 0
  min (s1 + s2 + s3 + s4) 100

/-- The detection core of `SnipingBotDetector.analyze_wallet` after the
fetch/parse: `none` models the Python `None` returned below 5 buys. -/
def snipingAnalyzeWallet (wallet_address : String) (swaps : List SwapTransaction) :
    Option SnipingBot :=
  let buys := buysOf swaps
  if buys.length < 5 then none
  else
    let new_positions := newPositionsOf swaps
    let unique_tokens := (uniqKeys (new_positions.map (·.base_token))).length
    let total_volume := (buys.map (·.total_value_usd)).sum
    let avg_entry_speed :=
      if new_positions ≠ [] then
        ((new_positions.map (·.transaction_index)).sum : ℚ) / (new_positions.length : ℚ)
      else 0
    let new_position_ratio :=
      if buys ≠ [] then (new_positions.length : ℚ) / (buys.length : ℚ) else 0
    let successful_snipes := (new_positions.take 10).countP (snipeSuccessful swaps)
    let success_rate :=
      if new_positions ≠ [] then
        ((successful_snipes : ℚ) / ((min new_positions.length 10 : ℕ) : ℚ)) * 100
      else 0
    some
      { wallet_address := wallet_address
        total_snipes := new_positions.length
        successful_snipes := successful_snipes
        success_rate := success_rate
        total_volume_usd := total_volume
        avg_entry_speed_blocks := avg_entry_speed
        tokens_sniped := (new_positions.take 20).map (·.bought_symbol)
        recent_snipes := new_positions.take 5
        bot_confidence_score := calculateBotConfidence new_positions.length unique_tokens
          new_position_ratio avg_entry_speed }

/-! ## Predicates named by the claims -/

/-- The wash-trading suspicion rule, stated over a wallet's reported metrics:
(round trips ≥ minimum and volume ≥ minimum) or (same-block trades ≥ minimum
and volume ≥ minimum). -/
def washSuspiciousCond (cfg : WashConfig) (p : WalletPattern) : Prop :=
  (cfg.min_round_trips ≤ p.round_trips ∧ cfg.min_volume_threshold ≤ p.total_volume) ∨
  (cfg.min_same_block_trades ≤ p.same_block_trades ∧ cfg.min_volume_threshold ≤ p.total_volume)

instance (cfg : WashConfig) (p : WalletPattern) : Decidable (washSuspiciousCond cfg p) := by
  unfold washSuspiciousCond; infer_instance

/-- The MEV/arbitrage-bot filter rule over a wallet's reported metrics:
same-block trades ≥ 2, average trade size < 100, total volume < 500. -/
def washMevCond (p : WalletPattern) : Prop :=
  2 ≤ p.same_block_trades ∧ p.avg_trade_size < 100 ∧ p.total_volume < 500

instance (p : WalletPattern) : Decidable (washMevCond p) := by
  unfold washMevCond; infer_instance

/-- Modelled from the spec: the claimed successful-snipe rule — "a sell of
the same token occurring later than that buy happened at a higher
base_quote_price, or, when the token was never sold, it is optimistically
counted as successful". Stated for comparison with the code's
`snipeSuccessful`. -/
def specSnipeSuccess (swaps : List SwapTransaction) (snipe : SwapTransaction) : Bool :=
  swaps.any (fun s => decide (s.transaction_type = "sell" ∧ s.base_token = snipe.base_token ∧
    snipe.block_number < s.block_number ∧ snipe.base_quote_price < s.base_quote_price)) ||
  !(swaps.any (fun s => decide (s.transaction_type = "sell" ∧ s.base_token = snipe.base_token)))

/-! ## Concrete inputs used by the theorems -/

/-- A neutral swap record; concrete examples override single fields. -/
def baseSwap : SwapTransaction :=
  { transaction_hash := "h"
    transaction_index := 0
    transaction_type := "buy"
    block_number := 1
    block_timestamp := "t"
    wallet_address := "w"
    pair_address := "p"
    pair_label := "P"
    base_token := "T"
    quote_token := "Q"
    bought_amount := 1
    bought_symbol := "B"
    sold_amount := 1
    sold_symbol := "S"
    total_value_usd := 100
    base_quote_price := 1
    sub_category := "" }

/-- Block 1, index 0: wallet a buys on pair p for 100 USD. -/
def sandA0 : SwapTransaction :=
  { baseSwap with wallet_address := "a", transaction_type := "buy", transaction_index := 0 }

/-- Block 1, index 1: wallet b trades on pair p. -/
def sandB1 : SwapTransaction :=
  { baseSwap with wallet_address := "b", transaction_type := "buy", transaction_index := 1 }

/-- The same middle transaction moved to a different pair q. -/
def sandB1q : SwapTransaction := { sandB1 with pair_address := "q" }

/-- Block 1, index 2: wallet a sells on pair p for 150 USD. -/
def sandA2 : SwapTransaction :=
  { baseSwap with
    wallet_address := "a"
    transaction_type := "sell"
    transaction_index := 2
    total_value_usd := 150 }

/-- The single sandwich finding expected for `[sandA0, sandB1, sandA2]`. -/
def sandExpected : SandwichAttack :=
  { attacker_address := "a"
    victim_address := "b"
    block_number := 1
    front_run_tx := sandA0
    victim_tx := sandB1
    back_run_tx := sandA2
    profit_usd := 50
    attack_timestamp := "t" }

/-- Two same-block buy rows of 40 USD each by one wallet: the MEV-bot shape
(2 same-block trades, average size 40 < 100, volume 80 < 500). -/
def mevTx1 : AnomTx :=
  { blockTimestamp := 0
    transactionType := "buy"
    blockNumber := 5
    walletAddress := "a"
    pairAddress := "p"
    pairLabel := "P"
    subCategory := ""
    totalValueUsd := 40
    baseQuotePrice := some 1 }

def mevTx2 : AnomTx := { mevTx1 with blockTimestamp := 1 }

def mevBatch : List AnomTx := [mevTx1, mevTx2]

/-- A buy row with price 0 and a matching sell 10 seconds later: the
wash-trading zero-denominator case. -/
def zeroPriceBuy : AnomTx := { mevTx1 with baseQuotePrice := some 0 }

def zeroPriceSell : AnomTx :=
  { mevTx1 with transactionType := "sell", blockTimestamp := 10, baseQuotePrice := some 5 }

/-- A buy with entry price 0: the insider-trading zero-denominator case. -/
def zeroEntryBuy : SwapTransaction := { baseSwap with base_quote_price := 0 }

/-- Two consecutive pool trades whose second has price 0: the
concentrated-attack zero-denominator case. -/
def basePoolSwap : PoolSwap :=
  { transaction_hash := "h"
    transaction_index := 0
    transaction_type := "buy"
    block_number := 1
    block_timestamp := "t"
    wallet_address := "w"
    sub_category := ""
    base_token_amount := 1
    quote_token_amount := 1
    base_token_price_usd := 1
    quote_token_price_usd := 1
    base_quote_price := 1
    total_value_usd := 1 }

def zeroPricePool1 : PoolSwap := { basePoolSwap with base_quote_price := 5 }

def zeroPricePool2 : PoolSwap := { basePoolSwap with base_quote_price := 0 }

/-- A fully-populated raw record: `pairLabel` and `subCategory` are absent,
the wallet address is mixed-case and the sold amount negative. -/
def rawComplete : RawSwap :=
  { transactionHash := some "h"
    transactionIndex := some 0
    transactionType := some "buy"
    blockNumber := some 1
    blockTimestamp := some "t"
    walletAddress := some "0xAB"
    pairAddress := some "p"
    pairLabel := none
    baseToken := some "T"
    quoteToken := some "Q"
    boughtAmount := some (some 2)
    boughtSymbol := some "B"
    soldAmount := some (some (-3))
    soldSymbol := some "S"
    totalValueUsd := some 10
    baseQuotePrice := some (some 1)
    subCategory := none }

/-- The same record with its mandatory `transactionHash` missing. -/
def rawNoHash : RawSwap := { rawComplete with transactionHash := none }

/-- The same record with an unparsable `bought.amount`. -/
def rawBadBought : RawSwap := { rawComplete with boughtAmount := some none }

/-- A pool record whose `subCategory` key is absent (mandatory in
`_parse_pool_data`). -/
def rawPoolNoSub : RawPoolSwap :=
  { transactionHash := some "h"
    transactionIndex := some 0
    transactionType := some "buy"
    blockNumber := some 1
    blockTimestamp := some "t"
    walletAddress := some "w"
    subCategory := none
    baseTokenAmount := some (some 1)
    quoteTokenAmount := some (some 1)
    baseTokenPriceUsd := some (some 1)
    quoteTokenPriceUsd := some (some 1)
    baseQuotePrice := some (some 1)
    totalValueUsd := some (some 1) }

/-- Three modules scoring 25, 0 and 0: their mean 25/3 is not representable
at two decimals. -/
def riskModsEx : List RiskModule :=
  [.fraud true false false false, .governance false false false, .holder 0]

/-- 25 of 100 pool transactions by wallet a (all of value 1). -/
def poolBatch25 : List PoolSwap :=
  List.replicate 25 { basePoolSwap with wallet_address := "a" } ++
    List.replicate 75 { basePoolSwap with wallet_address := "b" }

/-- Exactly 20 of 100 pool transactions by wallet a (all of value 1). -/
def poolBatch20 : List PoolSwap :=
  List.replicate 20 { basePoolSwap with wallet_address := "a" } ++
    List.replicate 80 { basePoolSwap with wallet_address := "b" }

/-- A new-position buy of token T at block 100, price 10. -/
def snipeBuy : SwapTransaction :=
  { baseSwap with
    sub_category := "newPosition"
    block_number := 100
    base_quote_price := 10
    transaction_index := 3 }

/-- A filler buy (not a new position) of another token. -/
def fillerBuy : SwapTransaction := { baseSwap with base_token := "U" }

/-- A sell of token T at block 50 — earlier than the buy — at price 20. -/
def earlySell : SwapTransaction :=
  { baseSwap with transaction_type := "sell", block_number := 50, base_quote_price := 20 }

/-- Five buys (one new position) plus one earlier higher-priced sell of the
sniped token. -/
def snipeBatch : List SwapTransaction :=
  [snipeBuy, fillerBuy, fillerBuy, fillerBuy, fillerBuy, earlySell]

/-- A pool swap of zero USD value (for the guarded zero-total-volume share). -/
def zeroValuePool : PoolSwap := { basePoolSwap with total_value_usd := 0 }

/-- The canonical record `parseSwap` produces for `rawComplete`. -/
def rawCompleteParsed : SwapTransaction :=
  { transaction_hash := "h"
    transaction_index := 0
    transaction_type := "buy"
    block_number := 1
    block_timestamp := "t"
    wallet_address := "0xab"
    pair_address := "p"
    pair_label := ""
    base_token := "T"
    quote_token := "Q"
    bought_amount := 2
    bought_symbol := "B"
    sold_amount := 3
    sold_symbol := "S"
    total_value_usd := 10
    base_quote_price := 1
    sub_category := "" }

/-- The profile the sniping detector returns for `snipeBatch`. -/
def snipeBotEx : SnipingBot :=
  { wallet_address := "w"
    total_snipes := 1
    successful_snipes := 1
    success_rate := 100
    total_volume_usd := 500
    avg_entry_speed_blocks := 3
    tokens_sniped := ["B"]
    recent_snipes := [snipeBuy]
    bot_confidence_score := 25 }

set_option maxRecDepth 40000

/-! ## Helper lemmas about the list utilities -/

theorem mem_insertSorted {lt : α → α → Bool} {a b : α} {l : List α} :
    b ∈ insertSorted lt a l ↔ b = a ∨ b ∈ l := by
  induction l with
  | nil => simp [insertSorted]
  | cons c cs ih =>
      simp only [insertSorted]
      split
      · simp [List.mem_cons]
      · simp only [List.mem_cons, ih]
        tauto

theorem mem_stableInsSort {lt : α → α → Bool} {b : α} {l : List α} :
    b ∈ stableInsSort lt l ↔ b ∈ l := by
  suffices h : ∀ acc : List α,
      b ∈ l.foldl (fun acc a => insertSorted lt a acc) acc ↔ b ∈ acc ∨ b ∈ l by
    simpa [stableInsSort] using h []
  induction l with
  | nil => simp
  | cons c cs ih =>
      intro acc
      simp only [List.foldl_cons, ih, mem_insertSorted, List.mem_cons]
      tauto

theorem mem_uniqKeysAux [DecidableEq κ] {a : κ} {l seen : List κ} :
    a ∈ uniqKeysAux seen l ↔ a ∈ l ∧ a ∉ seen := by
  induction l generalizing seen with
  | nil => simp [uniqKeysAux]
  | cons k ks ih =>
      simp only [uniqKeysAux]
      split
      · rename_i hk
        rw [ih]
        simp only [List.mem_cons]
        constructor
        · tauto
        · rintro ⟨ha | ha, hs⟩
          · exact absurd (ha ▸ hk) hs
          · exact ⟨ha, hs⟩
      · rename_i hk
        simp only [List.mem_cons, ih, List.mem_cons]
        constructor
        · rintro (ha | ⟨ha, hs⟩)
          · exact ⟨Or.inl ha, ha ▸ hk⟩
          · exact ⟨Or.inr ha, fun h => hs (Or.inr h)⟩
        · rintro ⟨ha | ha, hs⟩
          · exact Or.inl ha
          · by_cases hak : a = k
            · exact Or.inl hak
            · exact Or.inr ⟨ha, fun h => (h.elim hak fun h' => hs h')⟩

theorem mem_uniqKeys [DecidableEq κ] {a : κ} {l : List κ} :
    a ∈ uniqKeys l ↔ a ∈ l := by
  simp [uniqKeys, mem_uniqKeysAux]

/-! ## C1 -/

/-- C1: an empty input batch makes every detector return its zero-finding
result — the wash-trading, price-manipulation and pump-and-dump detectors
their zero dicts, sandwich/liquidity-pool/pool-domination the empty finding
list, the concentrated-attack and insider detectors an empty list without
raising, and the sniping-bot detector its insufficient-data `None` — and no
detector raises (every result is a defined value, `some` where the code can
raise on other inputs). -/
theorem C1_empty_batch_zero_results :
    (∀ cfg : WashConfig, washDetect cfg [] =
      ⟨0, [], none, none, some "", none⟩) ∧
    (∀ cfg : PriceConfig, priceDetect cfg [] = ⟨[], [], 0, none⟩) ∧
    (∀ cfg : PumpConfig, pumpDetect cfg [] = ⟨[], 0, []⟩) ∧
    sandwichAnalyze [] = [] ∧
    liquidityPoolAnalyze [] = [] ∧
    concentratedAnalyze [] = some [] ∧
    poolDominationAnalyze [] = [] ∧
    (∀ timeStr w m, insiderAnalyzeWallet timeStr w [] m = some []) ∧
    (∀ w, snipingAnalyzeWallet w [] = none) :=
  ⟨fun _ => rfl, fun _ => rfl, fun _ => rfl, rfl, rfl, rfl, rfl,
    fun _ _ _ => rfl, fun _ => rfl⟩

/-! ## C2 -/

/-- C2 counterexample: the claimed zero-denominator defaults do not hold.
The wash-trading deviation `|buy - sell| / buy` at `buy = 0` is the numpy
infinity, not 0; the insider-trading analysis of a wallet whose entry price
is 0 raises (`none`), and so does the concentrated-attack scan when the next
trade's `base_quote_price` is 0 — none of the three produces a defaulted 0. -/
theorem C2_div_zero_counterexample :
    fdiv |(0:ℚ) - 5| 0 ≠ QF.q 0 ∧
    insiderAnalyzeWallet (fun _ => "0 minutes") "w" [zeroEntryBuy] 30 = none ∧
    concentratedAnalyze [zeroPricePool1, zeroPricePool2] = none := by
  refine ⟨?_, ?_, ?_⟩ <;> with_unfolding_all decide

/-- C2 amended: zero denominators are not defaulted to 0 in the three listed
divisions. In the wash-trading round-trip scan a zero buy price makes the
deviation inf/nan, so the threshold comparison is false and the pair is
silently not counted (no error, no 0); the insider-trading price change and
the concentrated-attack price impact raise `ZeroDivisionError` (modelled as
`none`). Divisions that are genuinely guarded to 0 exist elsewhere, e.g. the
pool-domination volume share at zero total volume. -/
theorem C2_division_guards :
    (∀ ps θ : ℚ, (fdiv |(0:ℚ) - ps| 0).leQ θ = false) ∧
    roundTripPairs {} [zeroPriceBuy, zeroPriceSell] = [] ∧
    insiderAnalyzeWallet (fun _ => "0 minutes") "w" [zeroEntryBuy] 30 = none ∧
    concentratedAnalyze [zeroPricePool1, zeroPricePool2] = none ∧
    poolVolumePercentage [zeroValuePool] "w" = 0 := by
  refine ⟨?_, ?_, ?_, ?_, ?_⟩
  · intro ps θ
    rcases eq_or_ne ps 0 with h | h
    · simp [fdiv, QF.leQ, h]
    · simp [fdiv, QF.leQ, h, abs_pos, sub_ne_zero, h.symm]
  · with_unfolding_all decide
  · with_unfolding_all decide
  · with_unfolding_all decide
  · with_unfolding_all decide

/-! ## C3 -/

theorem parseSwap_eq_none_of_hash_none {r : RawSwap} (h : r.transactionHash = none) :
    parseSwap r = none := by
  unfold parseSwap
  split
  · rename_i heq _ _ _ _ _ _ _ _ _ _ _ _ _ _
    rw [h] at heq
    exact absurd heq (by simp)
  · rfl

theorem parseSwapBatch_eq_none {rs rs2 : List RawSwap} {r : RawSwap}
    (h : parseSwap r = none) : parseSwapBatch (rs ++ r :: rs2) = none := by
  induction rs with
  | nil => simp [parseSwapBatch, h]
  | cons a as ih =>
      simp only [List.cons_append, parseSwapBatch, List.append_eq]
      rw [ih]
      cases parseSwap a <;> rfl

/-- C3 counterexample: normalization is not tolerant as claimed. A record
with an unparsable `bought.amount` raises (`none`) instead of coercing to
0.0, and a batch containing one record without its `transactionHash` fails
as a whole (`none`) instead of dropping only that record and parsing the
rest. -/
theorem C3_parse_counterexample :
    parseSwap rawBadBought = none ∧
    parseSwapBatch [rawComplete, rawNoHash] = none := by
  constructor <;> with_unfolding_all decide

/-- C3 amended: a successfully parsed record does lower-case the wallet
address, take the sold amount as an absolute value and default a missing
`pairLabel`/`subCategory` to the empty string; but an absent mandatory field
or an unparsable numeric field raises for that record, and one failing
record aborts the whole batch rather than being dropped; the liquidity-pool
parser additionally treats `subCategory` as mandatory. -/
theorem C3_parse_normalization :
    (∀ (r : RawSwap) (s : SwapTransaction), parseSwap r = some s →
      (∀ w, r.walletAddress = some w → s.wallet_address = lowerStr w) ∧
      s.pair_label = r.pairLabel.getD "" ∧
      s.sub_category = r.subCategory.getD "" ∧
      (∀ q, r.soldAmount = some (some q) → s.sold_amount = |q|) ∧
      0 ≤ s.sold_amount) ∧
    (∀ r : RawSwap, r.transactionHash = none → parseSwap r = none) ∧
    (∀ (rs rs2 : List RawSwap) (r : RawSwap), parseSwap r = none →
      parseSwapBatch (rs ++ r :: rs2) = none) ∧
    parsePoolSwap rawPoolNoSub = none := by
  refine ⟨?_, ?_, ?_, ?_⟩
  · intro r s h
    unfold parseSwap at h
    split at h
    · rename_i heq1 heq2 heq3 heq4 heq5 heq6 heq7 heq8 heq9 heq10 heq11 heq12 heq13 heq14 heq15
      obtain rfl := Option.some.inj h
      refine ⟨?_, rfl, rfl, ?_, ?_⟩
      · intro w hw
        rw [heq6] at hw
        simp_all
      · intro q hq
        rw [heq12] at hq
        simp_all
      · exact abs_nonneg _
    · exact absurd h (by simp)
  · exact fun r h => parseSwap_eq_none_of_hash_none h
  · exact fun rs rs2 r h => parseSwapBatch_eq_none h
  · with_unfolding_all decide

/-- C3 witness: the general facts applied at concrete records. -/
theorem C3_parse_normalization_witness :
    rawCompleteParsed.wallet_address = lowerStr "0xAB" ∧
    parseSwap rawNoHash = none ∧
    parseSwapBatch [rawComplete, rawNoHash] = none := by
  obtain ⟨h1, h2, h3, _⟩ := C3_parse_normalization
  refine ⟨?_, h2 rawNoHash rfl, ?_⟩
  · exact (h1 rawComplete rawCompleteParsed (by with_unfolding_all decide)).1 "0xAB" rfl
  · have := h3 [rawComplete] [] rawNoHash (h2 rawNoHash rfl)
    simpa using this

/-! ## C4 -/

/-- C4 counterexample: `overall_risk` does not return the arithmetic mean of
the module scores — the first component is `round(mean, 2)`. For modules
scoring 25, 0 and 0 the mean 25/3 is not representable at two decimals, so
the returned score differs from it. -/
theorem C4_mean_counterexample :
    (overallRisk riskModsEx).1 ≠
      ((riskModsEx.map RiskModule.score).sum / ((riskModsEx.map RiskModule.score).length : ℚ)) := by
  with_unfolding_all decide

/-- C4 amended: `overall_risk` returns the pair `(s, label s)` where `s` is
the arithmetic mean of the module scores rounded to two decimal places
(ties to even); `label` maps [0,23] to Low Risk, (23,50] to Medium Risk and
(50,100] to High Risk, so 23.0 is Low, 23.01 Medium, 50.0 Medium and 50.01
High. -/
theorem C4_overall_risk :
    (∀ mods : List RiskModule, overallRisk mods =
      (overallScore mods, riskLabel (overallScore mods))) ∧
    (∀ mods : List RiskModule, mods ≠ [] → overallScore mods =
      pyRound2 ((mods.map RiskModule.score).sum / ((mods.map RiskModule.score).length : ℚ))) ∧
    riskLabel 23 = "Low Risk" ∧ riskLabel (2301/100) = "Medium Risk" ∧
    riskLabel 50 = "Medium Risk" ∧ riskLabel (5001/100) = "High Risk" ∧
    (∀ s : ℚ, 0 ≤ s → s ≤ 23 → riskLabel s = "Low Risk") ∧
    (∀ s : ℚ, 23 < s → s ≤ 50 → riskLabel s = "Medium Risk") ∧
    (∀ s : ℚ, 50 < s → s ≤ 100 → riskLabel s = "High Risk") := by
  refine ⟨fun _ => rfl, ?_, ?_, ?_, ?_, ?_, ?_, ?_, ?_⟩
  · intro mods h
    rw [overallScore]
    rw [if_neg (by simpa using h)]
  · with_unfolding_all decide
  · with_unfolding_all decide
  · with_unfolding_all decide
  · with_unfolding_all decide
  · intro s h1 h2
    rw [riskLabel, if_pos ⟨h1, h2⟩]
  · intro s h1 h2
    rw [riskLabel, if_neg (by rintro ⟨_, hc⟩; linarith), if_pos ⟨h1, h2⟩]
  · intro s h1 h2
    rw [riskLabel, if_neg (by rintro ⟨_, hc⟩; linarith),
      if_neg (by rintro ⟨_, hc⟩; linarith), if_pos ⟨h1, h2⟩]

/-- C4 witness: the rounded-mean equation and the label bands applied at
concrete scores. -/
theorem C4_overall_risk_witness :
    overallScore riskModsEx =
      pyRound2 ((riskModsEx.map RiskModule.score).sum /
        ((riskModsEx.map RiskModule.score).length : ℚ)) ∧
    riskLabel 10 = "Low Risk" ∧ riskLabel 40 = "Medium Risk" ∧
    riskLabel 90 = "High Risk" := by
  obtain ⟨_, hmean, _, _, _, _, hlo, hmid, hhi⟩ := C4_overall_risk
  exact ⟨hmean riskModsEx (by with_unfolding_all decide),
    hlo 10 (by norm_num) (by norm_num),
    hmid 40 (by norm_num) (by norm_num),
    hhi 90 (by norm_num) (by norm_num)⟩

/-! ## C5 -/

/-- C5: sandwich detection. For a block with indices (0,1,2) where wallet a
buys at 0 and sells at 2 on pair p and wallet b trades at 1 on p, exactly
one attack with attacker a and victim b is found; moving b's transaction to
another pair yields no attack. In general, the number of findings in a
block equals, summed over each wallet with at least two transactions and
each adjacent buy/sell pair of that wallet on one pair, the number of other
wallets' transactions on that pair with index strictly between the two. -/
theorem C5_sandwich_detection :
    sandwichAnalyze [sandA0, sandB1, sandA2] = [sandExpected] ∧
    sandwichAnalyze [sandA0, sandB1q, sandA2] = [] ∧
    (∀ txs : List SwapTransaction, (detectSandwichInBlock txs).length =
      (((groupPairsBy (·.wallet_address) txs).filter (fun p => 2 ≤ p.2.length)).map
        (fun p => ((p.2.zip p.2.tail).map (fun fb =>
          if fb.1.transaction_type = "buy" ∧ fb.2.transaction_type = "sell" ∧
              fb.1.pair_address = fb.2.pair_address then
            (sandwichVictims p.1 fb.1 fb.2 txs).length
          else 0)).sum)).sum) := by
  refine ⟨by with_unfolding_all decide, by with_unfolding_all decide, ?_⟩
  intro txs
  rw [detectSandwichInBlock, List.length_flatMap]
  congr 1
  apply List.map_congr_left
  intro p _
  simp only [Function.comp_apply, List.length_flatMap, List.map_map]
  congr 1
  apply List.map_congr_left
  intro fb _
  simp only [Function.comp_apply]
  split
  · rw [List.length_map]
  · rfl

/-! ## C6 -/

theorem analyzeWalletPattern_susp_eq (cfg : WashConfig) (g : List AnomTx) :
    (analyzeWalletPattern cfg g).is_suspicious =
      decide (washSuspiciousCond cfg (analyzeWalletPattern cfg g)) := rfl

theorem analyzeWalletPattern_mev_eq (cfg : WashConfig) (g : List AnomTx) :
    (analyzeWalletPattern cfg g).is_likely_mev =
      decide (washMevCond (analyzeWalletPattern cfg g)) := rfl

/-- C6 counterexample: a wallet that satisfies the MEV filter conditions
(two same-block trades of 40 USD: 2 same-block trades, average 40 < 100,
volume 80 < 500) is indeed excluded from the suspicious set, but
`mev_bots_filtered` is 0, not 1 — such a wallet is only counted when it is
also flagged suspicious. -/
theorem C6_mev_count_counterexample :
    washMevCond (analyzeWalletPattern {} (washGroup mevBatch "a")) ∧
    (washDetect {} mevBatch).suspicious_wallets = [] ∧
    (washDetect {} mevBatch).mev_bots_filtered = some 0 := by
  refine ⟨?_, ?_, ?_⟩ <;> with_unfolding_all decide

/-- C6 amended: on a non-empty batch, a wallet appears in the returned
suspicious set exactly when its pattern satisfies the suspicion rule
(round_trips ≥ min_round_trips and volume ≥ min_volume, or
same_block_trades ≥ min_same_block and volume ≥ min_volume) and does not
satisfy the MEV filter; `mev_bots_filtered` counts only the wallets that
satisfy both the suspicion rule and the MEV filter (not every MEV-shaped
wallet). -/
theorem C6_wash_suspicious_classification :
    ∀ (cfg : WashConfig) (batch : List AnomTx), batch ≠ [] →
      (∀ w p, (w, p) ∈ (washDetect cfg batch).suspicious_wallets ↔
        (w ∈ washWallets batch ∧ p = analyzeWalletPattern cfg (washGroup batch w) ∧
          washSuspiciousCond cfg p ∧ ¬ washMevCond p)) ∧
      (washDetect cfg batch).mev_bots_filtered =
        some ((washWallets batch).countP (fun w =>
          decide (washSuspiciousCond cfg (analyzeWalletPattern cfg (washGroup batch w)) ∧
            washMevCond (analyzeWalletPattern cfg (washGroup batch w))))) := by
  intro cfg batch hne
  obtain ⟨t, ts, rfl⟩ : ∃ t ts, batch = t :: ts := by
    cases batch with
    | nil => exact absurd rfl hne
    | cons t ts => exact ⟨t, ts, rfl⟩
  constructor
  · intro w p
    simp only [washDetect, List.mem_filter, List.mem_map]
    constructor
    · rintro ⟨⟨w', hw', heq⟩, hcond⟩
      obtain ⟨rfl, rfl⟩ := Prod.mk.injEq .. ▸ heq
      rw [analyzeWalletPattern_susp_eq, analyzeWalletPattern_mev_eq] at hcond
      simp only [Bool.and_eq_true, Bool.not_eq_true', decide_eq_true_eq,
        decide_eq_false_iff_not] at hcond
      exact ⟨hw', rfl, hcond.1, hcond.2⟩
    · rintro ⟨hw, rfl, hs, hm⟩
      refine ⟨⟨w, hw, rfl⟩, ?_⟩
      rw [analyzeWalletPattern_susp_eq, analyzeWalletPattern_mev_eq]
      simp only [Bool.and_eq_true, Bool.not_eq_true', decide_eq_true_eq,
        decide_eq_false_iff_not]
      exact ⟨hs, hm⟩
  · simp only [washDetect]
    refine congrArg some ?_
    rw [← List.countP_eq_length_filter, List.countP_map]
    apply List.countP_congr
    intro w hw
    simp only [Function.comp_apply, analyzeWalletPattern_susp_eq,
      analyzeWalletPattern_mev_eq, Bool.and_eq_true, decide_eq_true_eq]

/-- C6 witness: the classification applied to the concrete MEV-shaped batch. -/
theorem C6_wash_suspicious_classification_witness :
    (washDetect {} mevBatch).mev_bots_filtered =
      some ((washWallets mevBatch).countP (fun w =>
        decide (washSuspiciousCond {} (analyzeWalletPattern {} (washGroup mevBatch w)) ∧
          washMevCond (analyzeWalletPattern {} (washGroup mevBatch w))))) :=
  (C6_wash_suspicious_classification {} mevBatch (by with_unfolding_all decide)).2

/-! ## C7 -/

/-- C7: the pump-and-dump confidence is monotonically non-decreasing in the
number of dumping wallets, the pump magnitude, the dump magnitude and the
dump volume (the other three inputs held fixed), and always lies in [0,1]:
it is the sum of four two-tier sub-scores worth 0.25 (high tier) or 0.15
(low tier), clamped to [0,1]. -/
theorem C7_pump_confidence_monotone_bounded :
    (∀ (cfg : PumpConfig) (d d' : ℕ) (p s : QF) (v : ℚ), d ≤ d' →
      calcPumpConfidence cfg d p s v ≤ calcPumpConfidence cfg d' p s v) ∧
    (∀ (cfg : PumpConfig) (d : ℕ) (p p' : ℚ) (s : QF) (v : ℚ), p ≤ p' →
      calcPumpConfidence cfg d (QF.q p) s v ≤ calcPumpConfidence cfg d (QF.q p') s v) ∧
    (∀ (cfg : PumpConfig) (d : ℕ) (p : QF) (s s' : ℚ) (v : ℚ), s ≤ s' →
      calcPumpConfidence cfg d p (QF.q s) v ≤ calcPumpConfidence cfg d p (QF.q s') v) ∧
    (∀ (cfg : PumpConfig) (d : ℕ) (p s : QF) (v v' : ℚ), v ≤ v' →
      calcPumpConfidence cfg d p s v ≤ calcPumpConfidence cfg d p s v') ∧
    (∀ (cfg : PumpConfig) (d : ℕ) (p s : QF) (v : ℚ),
      0 ≤ calcPumpConfidence cfg d p s v ∧ calcPumpConfidence cfg d p s v ≤ 1) := by
  refine ⟨?_, ?_, ?_, ?_, ?_⟩
  · intro cfg d d' p s v h
    simp only [calcPumpConfidence]
    refine min_le_min (add_le_add_right (add_le_add_right (add_le_add_right ?_ _) _) _) le_rfl
    split_ifs <;> try norm_num
    all_goals omega
  · intro cfg d p p' s v h
    simp only [calcPumpConfidence, QF.geQ, decide_eq_true_eq]
    refine min_le_min
      (add_le_add_right (add_le_add_right (add_le_add_left ?_ _) _) _) le_rfl
    split_ifs <;> try norm_num
    all_goals linarith
  · intro cfg d p s s' v h
    simp only [calcPumpConfidence, QF.geQ, decide_eq_true_eq]
    refine min_le_min (add_le_add_right (add_le_add_left ?_ _) _) le_rfl
    split_ifs <;> try norm_num
    all_goals linarith
  · intro cfg d p s v v' h
    simp only [calcPumpConfidence]
    refine min_le_min (add_le_add_left ?_ _) le_rfl
    split_ifs <;> try norm_num
    all_goals linarith
  · intro cfg d p s v
    simp only [calcPumpConfidence]
    constructor
    · refine le_min ?_ zero_le_one
      have h1 : (0:ℚ) ≤
          (if 20 ≤ d then (1/4:ℚ) else if cfg.min_wallets ≤ d then 15/100 else 0) := by
        split_ifs <;> norm_num
      have h2 : (0:ℚ) ≤
          (if p.geQ 1 then (1/4:ℚ) else if p.geQ cfg.pump_threshold then 15/100 else 0) := by
        split_ifs <;> norm_num
      have h3 : (0:ℚ) ≤
          (if s.geQ (1/2) then (1/4:ℚ) else if s.geQ cfg.dump_threshold then 15/100 else 0) := by
        split_ifs <;> norm_num
      have h4 : (0:ℚ) ≤
          (if 100000 ≤ v then (1/4:ℚ) else if 50000 ≤ v then 15/100 else 0) := by
        split_ifs <;> norm_num
      linarith
    · exact min_le_right _ _

/-- C7 witness: the monotonicity and bounds applied at concrete inputs. -/
theorem C7_pump_confidence_witness :
    calcPumpConfidence {} 10 (QF.q 1) (QF.q (1/2)) 50000 ≤
      calcPumpConfidence {} 20 (QF.q 1) (QF.q (1/2)) 50000 ∧
    calcPumpConfidence {} 10 (QF.q (3/5)) (QF.q (1/2)) 50000 ≤
      calcPumpConfidence {} 10 (QF.q 1) (QF.q (1/2)) 50000 ∧
    calcPumpConfidence {} 10 (QF.q 1) (QF.q (1/3)) 50000 ≤
      calcPumpConfidence {} 10 (QF.q 1) (QF.q (1/2)) 50000 ∧
    calcPumpConfidence {} 10 (QF.q 1) (QF.q (1/2)) 50000 ≤
      calcPumpConfidence {} 10 (QF.q 1) (QF.q (1/2)) 100000 ∧
    0 ≤ calcPumpConfidence {} 20 (QF.q 1) (QF.q (1/2)) 100000 ∧
    calcPumpConfidence {} 20 (QF.q 1) (QF.q (1/2)) 100000 ≤ 1 := by
  obtain ⟨h1, h2, h3, h4, h5⟩ := C7_pump_confidence_monotone_bounded
  exact ⟨h1 {} 10 20 (QF.q 1) (QF.q (1/2)) 50000 (by norm_num),
    h2 {} 10 (3/5) 1 (QF.q (1/2)) 50000 (by norm_num),
    h3 {} 10 (QF.q 1) (1/3) (1/2) 50000 (by norm_num),
    h4 {} 10 (QF.q 1) (QF.q (1/2)) 50000 100000 (by norm_num),
    (h5 {} 20 (QF.q 1) (QF.q (1/2)) 100000).1,
    (h5 {} 20 (QF.q 1) (QF.q (1/2)) 100000).2⟩

/-! ## C8 -/

/-- C8: pool domination flags a wallet exactly when its transaction-count
share exceeds 20% or its volume share exceeds 30%, with strict
inequalities: a wallet with 25 of 100 transactions is flagged, a wallet
with exactly 20 of 100 (and volume share not above 30%) is not. -/
theorem C8_pool_domination_thresholds :
    (∀ (swaps : List PoolSwap) (w : String),
      (∃ d ∈ poolDominationAnalyze swaps, d.dominant_wallet = w) ↔
        (w ∈ uniqKeys (swaps.map (·.wallet_address)) ∧
          (20 < poolTxPercentage swaps w ∨ 30 < poolVolumePercentage swaps w))) ∧
    (∃ d ∈ poolDominationAnalyze poolBatch25, d.dominant_wallet = "a") ∧
    ¬ (∃ d ∈ poolDominationAnalyze poolBatch20, d.dominant_wallet = "a") := by
  refine ⟨?_, ?_, ?_⟩
  · intro swaps w
    simp only [poolDominationAnalyze, mem_stableInsSort, List.mem_filterMap]
    constructor
    · rintro ⟨d, ⟨a, ha, hfa⟩, hdw⟩
      split at hfa
      · rename_i hcond
        obtain rfl := Option.some.inj hfa
        subst hdw
        exact ⟨ha, hcond⟩
      · exact absurd hfa (by simp)
    · rintro ⟨hw, hcond⟩
      exact ⟨_, ⟨w, hw, by rw [if_pos hcond]⟩, rfl⟩
  · with_unfolding_all decide
  · with_unfolding_all decide

/-! ## C9 -/

theorem foldl_maxStep_props (l : List SwapTransaction) (m : SwapTransaction) :
    ∃ r, l.foldl maxStep (some m) = some r ∧ (r = m ∨ r ∈ l) ∧
      m.block_number ≤ r.block_number ∧
      ∀ x ∈ l, x.block_number ≤ r.block_number := by
  induction l generalizing m with
  | nil => exact ⟨m, rfl, Or.inl rfl, le_refl _, by simp⟩
  | cons x xs ih =>
      simp only [List.foldl_cons]
      by_cases h : m.block_number < x.block_number
      · obtain ⟨r, hr, hmem, hge, hall⟩ := ih x
        refine ⟨r, by simpa [maxStep, h] using hr, ?_, le_trans (le_of_lt h) hge, ?_⟩
        · rcases hmem with rfl | hm
          · exact Or.inr (List.mem_cons_self _ _)
          · exact Or.inr (List.mem_cons_of_mem _ hm)
        · intro y hy
          rcases List.mem_cons.mp hy with rfl | hy2
          · exact hge
          · exact hall y hy2
      · obtain ⟨r, hr, hmem, hge, hall⟩ := ih m
        refine ⟨r, by simpa [maxStep, h] using hr, ?_, hge, ?_⟩
        · rcases hmem with rfl | hm
          · exact Or.inl rfl
          · exact Or.inr (List.mem_cons_of_mem _ hm)
        · intro y hy
          rcases List.mem_cons.mp hy with rfl | hy2
          · exact le_trans (not_lt.mp h) hge
          · exact hall y hy2

theorem maxByBlock_none_iff (l : List SwapTransaction) :
    maxByBlock l = none ↔ l = [] := by
  cases l with
  | nil => simp [maxByBlock]
  | cons x xs =>
      simp only [maxByBlock, List.foldl_cons, maxStep]
      obtain ⟨r, hr, _, _, _⟩ := foldl_maxStep_props xs x
      rw [hr]
      simp

theorem maxByBlock_some_props {l : List SwapTransaction} {r : SwapTransaction}
    (h : maxByBlock l = some r) :
    r ∈ l ∧ ∀ x ∈ l, x.block_number ≤ r.block_number := by
  cases l with
  | nil => exact absurd h (by simp [maxByBlock])
  | cons x xs =>
      obtain ⟨r', hr', hmem, hge, hall⟩ := foldl_maxStep_props xs x
      have h2 : maxByBlock (x :: xs) = some r' := by
        simpa [maxByBlock, List.foldl_cons, maxStep] using hr'
      rw [h2] at h
      obtain rfl := Option.some.inj h
      constructor
      · rcases hmem with rfl | hm
        · exact List.mem_cons_self _ _
        · exact List.mem_cons_of_mem _ hm
      · intro y hy
        rcases List.mem_cons.mp hy with rfl | hy2
        · exact hge
        · exact hall y hy2

/-- C9 counterexample: the "occurring later than that buy" condition is not
in the code. For a wallet whose only sell of the sniped token happened
before the buy (block 50 < 100) at a higher price, the detector counts the
snipe as successful (1), while the claimed rule — a later sell at a higher
price, or never sold — counts 0 successes. -/
theorem C9_later_sell_counterexample :
    (snipingAnalyzeWallet "w" snipeBatch).map (fun b => b.successful_snipes) = some 1 ∧
    ((newPositionsOf snipeBatch).take 10).countP (specSnipeSuccess snipeBatch) = 0 := by
  constructor <;> with_unfolding_all decide

/-- C9 amended: a recent new-position buy counts as a successful snipe
exactly when the token was never sold (optimistic), or when the latest sell
of the token by block number — taken over the wallet's whole fetched
history, regardless of whether it is before or after the buy — has a
strictly higher `base_quote_price`; `latestSellOfToken` is `none` exactly
when no sell of the token exists and otherwise returns a sell of the token
with maximal block number. -/
theorem C9_snipe_success_rule :
    (∀ (w : String) (swaps : List SwapTransaction) (bot : SnipingBot),
      snipingAnalyzeWallet w swaps = some bot →
      bot.successful_snipes =
        ((newPositionsOf swaps).take 10).countP (snipeSuccessful swaps)) ∧
    (∀ (swaps : List SwapTransaction) (tok : String),
      latestSellOfToken swaps tok = none ↔
        ∀ s ∈ swaps, ¬(s.transaction_type = "sell" ∧ s.base_token = tok)) ∧
    (∀ (swaps : List SwapTransaction) (tok : String) (ls : SwapTransaction),
      latestSellOfToken swaps tok = some ls →
        ls ∈ swaps ∧ ls.transaction_type = "sell" ∧ ls.base_token = tok ∧
        ∀ s ∈ swaps, s.transaction_type = "sell" → s.base_token = tok →
          s.block_number ≤ ls.block_number) := by
  refine ⟨?_, ?_, ?_⟩
  · intro w swaps bot h
    simp only [snipingAnalyzeWallet] at h
    split at h
    · exact absurd h (by simp)
    · obtain rfl := Option.some.inj h
      rfl
  · intro swaps tok
    rw [latestSellOfToken, maxByBlock_none_iff, List.filter_eq_nil_iff]
    constructor
    · intro h s hs hcond
      exact absurd (decide_eq_true hcond) (h s hs)
    · intro h s hs hp
      exact h s hs (of_decide_eq_true hp)
  · intro swaps tok ls h
    obtain ⟨hmem, hall⟩ := maxByBlock_some_props h
    rw [List.mem_filter] at hmem
    obtain ⟨hmem, hp⟩ := hmem
    have hp2 := of_decide_eq_true hp
    refine ⟨hmem, hp2.1, hp2.2, ?_⟩
    intro s hs h1 h2
    exact hall s (List.mem_filter.mpr ⟨hs, decide_eq_true ⟨h1, h2⟩⟩)

/-- C9 witness: the success rule applied to the concrete batch with an
earlier higher-priced sell. -/
theorem C9_snipe_success_rule_witness :
    snipeBotEx.successful_snipes =
      ((newPositionsOf snipeBatch).take 10).countP (snipeSuccessful snipeBatch) ∧
    earlySell ∈ snipeBatch := by
  obtain ⟨h1, _, h3⟩ := C9_snipe_success_rule
  refine ⟨h1 "w" snipeBatch snipeBotEx (by with_unfolding_all decide), ?_⟩
  exact (h3 snipeBatch "T" earlySell (by with_unfolding_all decide)).1

/-! ## C10 -/

/-- C10: in every profile the sniping detector returns, `successful_snipes`
is at most `min(total_snipes, 10)` — successes are evaluated only over the
first 10 new positions in input order — and `success_rate` lies in
[0,100]. -/
theorem C10_success_bounds :
    ∀ (w : String) (swaps : List SwapTransaction) (bot : SnipingBot),
      snipingAnalyzeWallet w swaps = some bot →
      bot.successful_snipes ≤ min bot.total_snipes 10 ∧
      0 ≤ bot.success_rate ∧ bot.success_rate ≤ 100 := by
  intro w swaps bot h
  simp only [snipingAnalyzeWallet] at h
  split at h
  · exact absurd h (by simp)
  · obtain rfl := Option.some.inj h
    simp only
    refine ⟨?_, ?_, ?_⟩
    · calc ((newPositionsOf swaps).take 10).countP (snipeSuccessful swaps)
          ≤ ((newPositionsOf swaps).take 10).length := List.countP_le_length _
        _ = min 10 (newPositionsOf swaps).length := List.length_take _ _
        _ = min (newPositionsOf swaps).length 10 := min_comm _ _
    · split
      · rename_i hne
        have hk : (0:ℚ) < ((min (newPositionsOf swaps).length 10 : ℕ) : ℚ) := by
          have h0 : 0 < min (newPositionsOf swaps).length 10 := by
            have := List.length_pos.mpr hne
            omega
          exact_mod_cast h0
        positivity
      · norm_num
    · split
      · rename_i hne
        have hcount : ((newPositionsOf swaps).take 10).countP (snipeSuccessful swaps)
            ≤ min (newPositionsOf swaps).length 10 := by
          calc ((newPositionsOf swaps).take 10).countP (snipeSuccessful swaps)
              ≤ ((newPositionsOf swaps).take 10).length := List.countP_le_length _
            _ = min 10 (newPositionsOf swaps).length := List.length_take _ _
            _ = min (newPositionsOf swaps).length 10 := min_comm _ _
        have hk : (0:ℚ) < ((min (newPositionsOf swaps).length 10 : ℕ) : ℚ) := by
          have h0 : 0 < min (newPositionsOf swaps).length 10 := by
            have := List.length_pos.mpr hne
            omega
          exact_mod_cast h0
        have hle : ((((newPositionsOf swaps).take 10).countP (snipeSuccessful swaps) : ℕ) : ℚ)
            ≤ ((min (newPositionsOf swaps).length 10 : ℕ) : ℚ) := by exact_mod_cast hcount
        have hone := div_le_one_of_le₀ hle (le_of_lt hk)
        linarith
      · norm_num

/-- C10 witness: the bounds applied to the profile returned for the
concrete batch. -/
theorem C10_success_bounds_witness :
    snipingAnalyzeWallet "w" snipeBatch = some snipeBotEx ∧
    snipeBotEx.successful_snipes ≤ min snipeBotEx.total_snipes 10 ∧
    0 ≤ snipeBotEx.success_rate ∧ snipeBotEx.success_rate ≤ 100 := by
  have heq : snipingAnalyzeWallet "w" snipeBatch = some snipeBotEx := by
    with_unfolding_all decide
  exact ⟨heq, C10_success_bounds "w" snipeBatch snipeBotEx heq⟩

end OnChain
